import Mathlib

/-!
Shallow embedding of the streak-tracking core of the CataCuti backend
(src/app.py).  The embedding covers:

* the `streaks` row layout (`StreakRecord`), with `last_activity` kept at
  the granularity the code stores: a full UTC timestamp, of which only the
  calendar-day component feeds the streak arithmetic;
* `update_streak` (SQLAlchemy path, src/app.py:441-467), including the
  semantics of a freshly constructed `Streak(user_id=...)` whose column
  defaults are applied at flush time, not at construction, so unset fields
  read as Python `None`;
* `update_streak_sqlite` (raw-SQL fallback, src/app.py:469-507);
* failure-injected variants of both, recording what the caller observes
  when the final commit raises;
* the read endpoint `get_streak_endpoint` (src/app.py:737-778);
* the non-signup branch of `login` (src/app.py:362-369 for the ORM path,
  src/app.py:410-419 for the sqlite path) and the streak row created by the
  signup branch (src/app.py:356-359 and 396-400).
-/

namespace CataCuti

/-- A UTC instant as the code observes it: `day` is the calendar-day number
of `datetime.date()` (days since some fixed epoch, as an integer so that
differences are signed) and `tod` the time of day inside that calendar day.
`datetime.utcnow()` produces both components; only `day` enters the streak
arithmetic, while the stored `last_activity` column keeps the whole
timestamp (`today` / `today.isoformat()`). -/
structure Timestamp where
  day : Int
  tod : Nat
  deriving DecidableEq, Repr

/-- A row of the `streaks` table (src/app.py:99-105 and 231-238), restricted
to the fields the update logic touches. -/
structure StreakRecord where
  current_streak : Int
  longest_streak : Int
  last_activity : Timestamp
  deriving DecidableEq, Repr

/-- `(today.date() - last_activity.date()).days` (src/app.py:453 and 482). -/
def daysDiff (today last : Timestamp) : Int := today.day - last.day

/-- The in-memory ORM object inside `update_streak`.  For a freshly
constructed `Streak(user_id=user_id)` the column defaults (`0`, `0`,
`utcnow`) are applied only when the session flushes, so before the commit
every unset field reads as Python `None`, modelled as `none`. -/
structure PendingStreak where
  current_streak : Option Int
  longest_streak : Option Int
  last_activity : Option Timestamp
  deriving DecidableEq, Repr

/-- Python `x > y` on possibly-`None` integers: raises `TypeError`
(modelled as `Except.error ()`) when either side is `None`. -/
def pyGt : Option Int → Option Int → Except Unit Bool
  | some x, some y => .ok (decide (y < x))
  | _, _ => .error ()

/-- Python `x += 1` on a possibly-`None` integer: raises `TypeError` when
the value is `None`. -/
def pyAdd1 : Option Int → Except Unit Int
  | some x => .ok (x + 1)
  | none => .error ()

/-- The `try` body of `update_streak` (src/app.py:443-465), SQLAlchemy
path.  `prior` is the row found by `Streak.query.filter_by(user_id=...)`
(`none` when the user has no row, in which case `Streak(user_id=user_id)`
is constructed with all column defaults still unapplied).  `today` is
`datetime.utcnow()`.  The final record is what `db.session.commit()`
persists, with any still-unset defaults applied at flush. -/
def update_streak_try (prior : Option StreakRecord) (today : Timestamp) :
    Except Unit StreakRecord :=
  let streak0 : PendingStreak :=
    match prior with
    | some s => ⟨some s.current_streak, some s.longest_streak, some s.last_activity⟩
    | none => ⟨none, none, none⟩
  let step1 : Except Unit PendingStreak :=
    match streak0.last_activity with
    | some la =>
      let days_diff := daysDiff today la
      if days_diff = 1 then
        match pyAdd1 streak0.current_streak with
        | .ok c => .ok { streak0 with current_streak := some c }
        | .error e => .error e
      else if 1 < days_diff then
        .ok { streak0 with current_streak := some (1 : Int) }
      else
        .ok streak0
    | none => .ok { streak0 with current_streak := some (1 : Int) }
  match step1 with
  | .error e => .error e
  | .ok streak1 =>
    match pyGt streak1.current_streak streak1.longest_streak with
    | .error e => .error e
    | .ok gt =>
      let streak2 :=
        if gt then { streak1 with longest_streak := streak1.current_streak } else streak1
      let streak3 := { streak2 with last_activity := some today }
      .ok { current_streak := streak3.current_streak.getD 0,
            longest_streak := streak3.longest_streak.getD 0,
            last_activity := streak3.last_activity.getD today }

/-- `update_streak` (src/app.py:441-467): the `try` body wrapped in the bare
`except` that calls `db.session.rollback()`, leaving the stored row exactly
as it was before the call.  The result is the stored row after the call. -/
def update_streak (prior : Option StreakRecord) (today : Timestamp) :
    Option StreakRecord :=
  match update_streak_try prior today with
  | .ok r => some r
  | .error _ => prior

/-- The `new_streak` local of `update_streak_sqlite` (src/app.py:484-489). -/
def new_streak (streak : StreakRecord) (today : Timestamp) : Int :=
  if daysDiff today streak.last_activity = 1 then streak.current_streak + 1
  else if 1 < daysDiff today streak.last_activity then 1
  else streak.current_streak

/-- `update_streak_sqlite` (src/app.py:469-507): when a row exists it is
updated to `new_streak`, `max(new_streak, longest_streak)` and
`today.isoformat()`; when none exists a row `(user_id, 1, 1,
today.isoformat())` is inserted.  Stored timestamps round-trip through
`isoformat`/`fromisoformat`, so they are kept as `Timestamp` values. -/
def update_streak_sqlite (prior : Option StreakRecord) (today : Timestamp) :
    Option StreakRecord :=
  match prior with
  | some streak =>
    some { current_streak := new_streak streak today,
           longest_streak := max (new_streak streak today) streak.longest_streak,
           last_activity := today }
  | none => some { current_streak := 1, longest_streak := 1, last_activity := today }

/-- The `PersistenceError` kind named by the specification (spec section 7).
The code never constructs or surfaces such a value. -/
inductive PersistenceError
  | commitFailed
  deriving DecidableEq, Repr

/-- `update_streak` with a failure-injected `db.session.commit()`
(`commitFails = true` means the commit raises).  The pair records the
stored row after the call and what the caller observes: the Python
function returns `None` on every path and its bare `except` swallows the
exception after `db.session.rollback()`, so the surfaced error is always
`none`. -/
def update_streakF (prior : Option StreakRecord) (today : Timestamp)
    (commitFails : Bool) : Option StreakRecord × Option PersistenceError :=
  match update_streak_try prior today with
  | .ok r => if commitFails then (prior, none) else (some r, none)
  | .error _ => (prior, none)

/-- `update_streak_sqlite` with a failure-injected `conn.commit()`.  When
the commit raises, nothing was committed so the stored row is unchanged;
the `except` only prints, so again no error is surfaced to the caller. -/
def update_streak_sqliteF (prior : Option StreakRecord) (today : Timestamp)
    (commitFails : Bool) : Option StreakRecord × Option PersistenceError :=
  if commitFails then (prior, none)
  else (update_streak_sqlite prior today, none)

/-- The response payload of the streak read endpoint. -/
structure StreakData where
  current_streak : Int
  longest_streak : Int
  last_activity : Timestamp
  deriving DecidableEq, Repr

/-- `get_streak_endpoint` (src/app.py:737-778).  Both the ORM branch and the
sqlite branch perform one SELECT and build the same payload: the stored
fields when a row exists, `(0, 0, datetime.utcnow())` otherwise.  The
second component is the streaks store after the call; neither branch
executes any write. -/
def get_streak_endpoint (streaks : Int → Option StreakRecord) (user_id : Int)
    (now : Timestamp) : StreakData × (Int → Option StreakRecord) :=
  match streaks user_id with
  | some s => (⟨s.current_streak, s.longest_streak, s.last_activity⟩, streaks)
  | none => (⟨0, 0, now⟩, streaks)

/-- The streak row created by the signup branch of `login` (src/app.py:
356-359 ORM, 396-400 sqlite): only `user_id` is supplied, so the column
defaults apply — `current_streak = 0`, `longest_streak = 0`,
`last_activity = utcnow` (resp. `CURRENT_TIMESTAMP`). -/
def signup_streak (now : Timestamp) : StreakRecord :=
  { current_streak := 0, longest_streak := 0, last_activity := now }

/-- The record a user row needs for the login branch: the id used to key
the streaks table and the stored password hash. -/
structure UserRec where
  id : Int
  password : String
  deriving DecidableEq, Repr

/-- The non-signup branch of `login` (src/app.py:362-369 ORM, 410-419
sqlite).  `upd` is the streak update of the respective backend,
`checkHash` abstracts `check_password_hash`, `users` the user store keyed
by email and `streaks` the streaks table keyed by user id.  The result is
the HTTP status and the streaks store after the call: on unknown email or
failed password check the branch returns 401 before any streak code runs;
on success it runs the streak update for that user and returns 200. -/
def login_run (upd : Option StreakRecord → Timestamp → Option StreakRecord)
    (checkHash : String → String → Bool) (users : String → Option UserRec)
    (streaks : Int → Option StreakRecord) (email pw : String) (now : Timestamp) :
    Nat × (Int → Option StreakRecord) :=
  match users email with
  | none => (401, streaks)
  | some user =>
    if checkHash user.password pw then
      (200, fun uid => if uid = user.id then upd (streaks uid) now else streaks uid)
    else (401, streaks)

/-- Closed form of the sqlite update on an existing row. -/
lemma update_streak_sqlite_some (s : StreakRecord) (t : Timestamp) :
    update_streak_sqlite (some s) t =
      some { current_streak := new_streak s t,
             longest_streak := max (new_streak s t) s.longest_streak,
             last_activity := t } := rfl

/-- On an existing row the ORM update computes exactly the sqlite closed
form: the branch structure is identical and `if current > longest then
longest := current` is `max`. -/
lemma update_streak_some (s : StreakRecord) (t : Timestamp) :
    update_streak (some s) t =
      some { current_streak := new_streak s t,
             longest_streak := max (new_streak s t) s.longest_streak,
             last_activity := t } := by
  unfold update_streak update_streak_try new_streak pyAdd1 pyGt
  by_cases h1 : daysDiff t s.last_activity = 1
  · by_cases h2 : s.longest_streak < s.current_streak + 1 <;>
      simp [h1, h2, max_def] <;> omega
  · by_cases h3 : 1 < daysDiff t s.last_activity
    · by_cases h2 : s.longest_streak < 1 <;>
        simp [h1, h3, h2, max_def] <;> omega
    · by_cases h2 : s.longest_streak < s.current_streak <;>
        simp [h1, h3, h2, max_def] <;> omega

/-- C1: on an existing row both implementations increment `current_streak`
when the calendar-day difference is 1 and reset it to 1 when the difference
exceeds 1; and the concrete sequence starting from a signup row of day 0 —
activity on day 1, day 2, then day 4 — yields `current_streak` 1, 2, 1 with
`longest_streak` staying 2 after the reset, on both backends. -/
theorem C1_increment_reset_and_sequence :
    (∀ (s : StreakRecord) (t : Timestamp), daysDiff t s.last_activity = 1 →
      (update_streak (some s) t =
         some ⟨s.current_streak + 1, max (s.current_streak + 1) s.longest_streak, t⟩ ∧
       update_streak_sqlite (some s) t =
         some ⟨s.current_streak + 1, max (s.current_streak + 1) s.longest_streak, t⟩)) ∧
    (∀ (s : StreakRecord) (t : Timestamp), 1 < daysDiff t s.last_activity →
      (update_streak (some s) t = some ⟨1, max 1 s.longest_streak, t⟩ ∧
       update_streak_sqlite (some s) t = some ⟨1, max 1 s.longest_streak, t⟩)) ∧
    (update_streak (some (signup_streak ⟨0, 0⟩)) ⟨1, 0⟩ = some ⟨1, 1, ⟨1, 0⟩⟩ ∧
     update_streak (update_streak (some (signup_streak ⟨0, 0⟩)) ⟨1, 0⟩) ⟨2, 0⟩ =
       some ⟨2, 2, ⟨2, 0⟩⟩ ∧
     update_streak (update_streak (update_streak (some (signup_streak ⟨0, 0⟩)) ⟨1, 0⟩)
         ⟨2, 0⟩) ⟨4, 0⟩ = some ⟨1, 2, ⟨4, 0⟩⟩) ∧
    (update_streak_sqlite (some (signup_streak ⟨0, 0⟩)) ⟨1, 0⟩ = some ⟨1, 1, ⟨1, 0⟩⟩ ∧
     update_streak_sqlite (update_streak_sqlite (some (signup_streak ⟨0, 0⟩)) ⟨1, 0⟩)
         ⟨2, 0⟩ = some ⟨2, 2, ⟨2, 0⟩⟩ ∧
     update_streak_sqlite (update_streak_sqlite (update_streak_sqlite
         (some (signup_streak ⟨0, 0⟩)) ⟨1, 0⟩) ⟨2, 0⟩) ⟨4, 0⟩ = some ⟨1, 2, ⟨4, 0⟩⟩) := by
  refine ⟨fun s t h => ?_, fun s t h => ?_, by decide, by decide⟩
  · rw [update_streak_some, update_streak_sqlite_some]
    simp [new_streak, h]
  · rw [update_streak_some, update_streak_sqlite_some]
    have h1 : daysDiff t s.last_activity ≠ 1 := by omega
    simp [new_streak, h, h1]

/-- Witness for C1 at a concrete input: a row with streak 3 and last
activity on day 7, updated on day 8. -/
theorem C1_increment_reset_and_sequence_witness :
    update_streak (some ⟨3, 5, ⟨7, 0⟩⟩) ⟨8, 0⟩ =
      some ⟨3 + 1, max (3 + 1) 5, ⟨8, 0⟩⟩ :=
  (C1_increment_reset_and_sequence.1 ⟨3, 5, ⟨7, 0⟩⟩ ⟨8, 0⟩ (by decide)).1

/-- C2: a second call on the same calendar date (so its days_diff is 0)
leaves both counters exactly as the first call left them, and leaves the
calendar date of `last_activity` unchanged, on both backends.  (The stored
timestamp is rewritten within the same day; the record field of the data
model is its calendar date.) -/
theorem C2_same_day_idempotent (s : StreakRecord) (t1 t2 : Timestamp)
    (hday : t2.day = t1.day) (r1 r2 q1 q2 : StreakRecord)
    (h1 : update_streak (some s) t1 = some r1)
    (h2 : update_streak (some r1) t2 = some r2)
    (g1 : update_streak_sqlite (some s) t1 = some q1)
    (g2 : update_streak_sqlite (some q1) t2 = some q2) :
    (r2.current_streak = r1.current_streak ∧ r2.longest_streak = r1.longest_streak ∧
      r2.last_activity.day = r1.last_activity.day) ∧
    (q2.current_streak = q1.current_streak ∧ q2.longest_streak = q1.longest_streak ∧
      q2.last_activity.day = q1.last_activity.day) := by
  rw [update_streak_some] at h1 h2
  rw [update_streak_sqlite_some] at g1 g2
  have e1 := Option.some.inj h1
  have g1e := Option.some.inj g1
  subst e1 g1e
  have e2 := Option.some.inj h2
  have g2e := Option.some.inj g2
  subst e2 g2e
  have hd : daysDiff t2 t1 = 0 := by simp [daysDiff, hday]
  constructor <;>
    refine ⟨?_, ?_, ?_⟩ <;>
      simp [new_streak, daysDiff, hday, ← max_assoc, max_self]

/-- Witness for C2 at a concrete input: first call on day 3 with streak 2,
second call later the same day. -/
theorem C2_same_day_idempotent_witness :
    ((⟨3, 3, ⟨3, 50⟩⟩ : StreakRecord).current_streak =
        (⟨3, 3, ⟨3, 10⟩⟩ : StreakRecord).current_streak ∧
      (⟨3, 3, ⟨3, 50⟩⟩ : StreakRecord).longest_streak =
        (⟨3, 3, ⟨3, 10⟩⟩ : StreakRecord).longest_streak ∧
      (⟨3, 3, ⟨3, 50⟩⟩ : StreakRecord).last_activity.day =
        (⟨3, 3, ⟨3, 10⟩⟩ : StreakRecord).last_activity.day) ∧
    ((⟨3, 3, ⟨3, 50⟩⟩ : StreakRecord).current_streak =
        (⟨3, 3, ⟨3, 10⟩⟩ : StreakRecord).current_streak ∧
      (⟨3, 3, ⟨3, 50⟩⟩ : StreakRecord).longest_streak =
        (⟨3, 3, ⟨3, 10⟩⟩ : StreakRecord).longest_streak ∧
      (⟨3, 3, ⟨3, 50⟩⟩ : StreakRecord).last_activity.day =
        (⟨3, 3, ⟨3, 10⟩⟩ : StreakRecord).last_activity.day) :=
  C2_same_day_idempotent ⟨2, 3, ⟨2, 0⟩⟩ ⟨3, 10⟩ ⟨3, 50⟩ (by decide)
    ⟨3, 3, ⟨3, 10⟩⟩ ⟨3, 3, ⟨3, 50⟩⟩ ⟨3, 3, ⟨3, 10⟩⟩ ⟨3, 3, ⟨3, 50⟩⟩
    (by decide) (by decide) (by decide) (by decide)

/-- C3 counterexample: with `last_activity` on day 10 and `now` on day 9
(days_diff = -1) both implementations keep the counters but overwrite
`last_activity` with the earlier timestamp, moving it backward — against
the claim that `last_activity` never moves backward. -/
theorem C3_counterexample :
    update_streak (some ⟨3, 3, ⟨10, 0⟩⟩) ⟨9, 0⟩ = some ⟨3, 3, ⟨9, 0⟩⟩ ∧
    update_streak_sqlite (some ⟨3, 3, ⟨10, 0⟩⟩) ⟨9, 0⟩ = some ⟨3, 3, ⟨9, 0⟩⟩ ∧
    ¬ ((⟨3, 3, ⟨10, 0⟩⟩ : StreakRecord).last_activity.day ≤
        (⟨3, 3, ⟨9, 0⟩⟩ : StreakRecord).last_activity.day) := by
  refine ⟨by decide, by decide, by decide⟩

/-- C3 amended: when days_diff < 0 both implementations leave
`current_streak` unchanged (and `longest_streak` becomes the max of the two
counters, unchanged for any row that already satisfies the longest-current
invariant), but they overwrite `last_activity` with `now`, moving it
backward; `last_activity` is non-decreasing only across calls whose `now`
is not earlier than the stored `last_activity`. -/
theorem C3_amended (s : StreakRecord) (t : Timestamp) :
    (daysDiff t s.last_activity < 0 →
      (update_streak (some s) t =
         some ⟨s.current_streak, max s.current_streak s.longest_streak, t⟩ ∧
       update_streak_sqlite (some s) t =
         some ⟨s.current_streak, max s.current_streak s.longest_streak, t⟩)) ∧
    (∀ r : StreakRecord, s.last_activity.day ≤ t.day →
      update_streak (some s) t = some r → s.last_activity.day ≤ r.last_activity.day) ∧
    (∀ r : StreakRecord, s.last_activity.day ≤ t.day →
      update_streak_sqlite (some s) t = some r →
        s.last_activity.day ≤ r.last_activity.day) := by
  refine ⟨fun h => ?_, fun r hle hr => ?_, fun r hle hr => ?_⟩
  · rw [update_streak_some, update_streak_sqlite_some]
    have h1 : daysDiff t s.last_activity ≠ 1 := by omega
    have h2 : ¬ 1 < daysDiff t s.last_activity := by omega
    simp [new_streak, h1, h2]
  · rw [update_streak_some] at hr
    have := Option.some.inj hr
    subst this
    exact hle
  · rw [update_streak_sqlite_some] at hr
    have := Option.some.inj hr
    subst this
    exact hle

/-- Witness for C3 amended at the concrete skewed input of the spec test:
last activity day 10, now day 9. -/
theorem C3_amended_witness :
    update_streak (some ⟨7, 9, ⟨10, 0⟩⟩) ⟨9, 0⟩ = some ⟨7, max 7 9, ⟨9, 0⟩⟩ ∧
    update_streak_sqlite (some ⟨7, 9, ⟨10, 0⟩⟩) ⟨9, 0⟩ = some ⟨7, max 7 9, ⟨9, 0⟩⟩ :=
  (C3_amended ⟨7, 9, ⟨10, 0⟩⟩ ⟨9, 0⟩).1 (by decide)

/-- C4: after any single update call, from any prior store state whatsoever
(row present or absent, invariant holding before or not), the resulting row
satisfies `current_streak ≤ longest_streak`, on both backends; hence the
invariant holds after every call of any sequence. -/
theorem C4_longest_ge_current (prior : Option StreakRecord) (t : Timestamp) :
    (∀ r : StreakRecord, update_streak prior t = some r →
      r.current_streak ≤ r.longest_streak) ∧
    (∀ r : StreakRecord, update_streak_sqlite prior t = some r →
      r.current_streak ≤ r.longest_streak) := by
  constructor <;> intro r hr
  · cases prior with
    | none =>
      simp only [update_streak, update_streak_try, pyGt, pyAdd1] at hr
      exact Option.noConfusion hr
    | some s =>
      rw [update_streak_some] at hr
      have := Option.some.inj hr
      subst this
      exact le_max_left _ _
  · cases prior with
    | none =>
      simp only [update_streak_sqlite] at hr
      have := Option.some.inj hr
      subst this
      simp
    | some s =>
      rw [update_streak_sqlite_some] at hr
      have := Option.some.inj hr
      subst this
      exact le_max_left _ _

/-- Witness for C4 at a concrete input: a row violating the invariant
(current 5, longest 2) updated on the next day still comes out with
`current_streak ≤ longest_streak`. -/
theorem C4_longest_ge_current_witness :
    (⟨6, 6, ⟨4, 0⟩⟩ : StreakRecord).current_streak ≤
      (⟨6, 6, ⟨4, 0⟩⟩ : StreakRecord).longest_streak :=
  (C4_longest_ge_current (some ⟨5, 2, ⟨3, 0⟩⟩) ⟨4, 0⟩).1 ⟨6, 6, ⟨4, 0⟩⟩ (by decide)

/-- C5 counterexample: signup creates the row with `current_streak = 0` and
a login later the same calendar day takes the days_diff = 0 branch, so the
row has been updated yet keeps `current_streak = 0`, violating the claimed
`current_streak >= 1`. -/
theorem C5_counterexample :
    update_streak (some (signup_streak ⟨5, 0⟩)) ⟨5, 300⟩ = some ⟨0, 0, ⟨5, 300⟩⟩ ∧
    update_streak_sqlite (some (signup_streak ⟨5, 0⟩)) ⟨5, 300⟩ =
      some ⟨0, 0, ⟨5, 300⟩⟩ ∧
    ¬ ((1 : Int) ≤ (⟨0, 0, ⟨5, 300⟩⟩ : StreakRecord).current_streak) := by
  refine ⟨by decide, by decide, by decide⟩

/-- C5 amended: `current_streak >= 1` does hold after any update whose
days_diff is at least 1 starting from a row with a non-negative counter,
and after the sqlite creation path; but rows created at signup carry
`current_streak = 0` and same-day or clock-skewed updates preserve the
prior value, so an updated row can show 0. -/
theorem C5_amended (s : StreakRecord) (t : Timestamp)
    (h0 : 0 ≤ s.current_streak) (hd : 1 ≤ daysDiff t s.last_activity) :
    (∀ r : StreakRecord, update_streak (some s) t = some r →
      1 ≤ r.current_streak) ∧
    (∀ r : StreakRecord, update_streak_sqlite (some s) t = some r →
      1 ≤ r.current_streak) ∧
    (∀ r : StreakRecord, update_streak_sqlite none t = some r →
      1 ≤ r.current_streak) := by
  have hnew : 1 ≤ new_streak s t := by
    unfold new_streak
    by_cases h1 : daysDiff t s.last_activity = 1
    · simp [h1]; omega
    · have h2 : 1 < daysDiff t s.last_activity := by omega
      simp [h1, h2]
  refine ⟨fun r hr => ?_, fun r hr => ?_, fun r hr => ?_⟩
  · rw [update_streak_some] at hr
    have := Option.some.inj hr
    subst this
    exact hnew
  · rw [update_streak_sqlite_some] at hr
    have := Option.some.inj hr
    subst this
    exact hnew
  · simp only [update_streak_sqlite] at hr
    have := Option.some.inj hr
    subst this
    simp

/-- Witness for C5 amended: a signup row from day 0 updated on day 1. -/
theorem C5_amended_witness :
    1 ≤ (⟨1, 1, ⟨1, 0⟩⟩ : StreakRecord).current_streak :=
  (C5_amended (signup_streak ⟨0, 0⟩) ⟨1, 0⟩ (by decide) (by decide)).1
    ⟨1, 1, ⟨1, 0⟩⟩ (by decide)

/-- C6: at the failing input — a user with no streak row — the SQLAlchemy
`update_streak` evaluates `streak.current_streak > streak.longest_streak`
with `longest_streak` still `None` (column defaults are applied at flush,
not at construction), which raises `TypeError`; the bare `except` rolls
back, so no row is created and the stored state stays empty.  The sqlite
twin inserts the row `(1, 1, now)` exactly as the claim states. -/
theorem C6_create_path_divergence :
    update_streak_try none ⟨5, 0⟩ = Except.error () ∧
    update_streak none ⟨5, 0⟩ = none ∧
    update_streak_sqlite none ⟨5, 0⟩ = some ⟨1, 1, ⟨5, 0⟩⟩ :=
  ⟨rfl, rfl, rfl⟩

/-- C7: the streak read endpoint never writes — the store after the call is
the store before it — and it returns the zero default with `last_activity =
now` when no row exists, and the stored fields unchanged when one does. -/
theorem C7_get_streak_read_only (streaks : Int → Option StreakRecord)
    (user_id : Int) (now : Timestamp) :
    (get_streak_endpoint streaks user_id now).2 = streaks ∧
    (streaks user_id = none →
      (get_streak_endpoint streaks user_id now).1 = ⟨0, 0, now⟩) ∧
    (∀ s : StreakRecord, streaks user_id = some s →
      (get_streak_endpoint streaks user_id now).1 =
        ⟨s.current_streak, s.longest_streak, s.last_activity⟩) := by
  refine ⟨?_, fun h => ?_, fun s h => ?_⟩
  · unfold get_streak_endpoint
    cases hs : streaks user_id <;> simp
  · simp [get_streak_endpoint, h]
  · simp [get_streak_endpoint, h]

/-- Witness for C7: an empty store queried for user 7 on day 5. -/
theorem C7_get_streak_read_only_witness :
    (get_streak_endpoint (fun _ => none) 7 ⟨5, 0⟩).1 = ⟨0, 0, ⟨5, 0⟩⟩ :=
  (C7_get_streak_read_only (fun _ => none) 7 ⟨5, 0⟩).2.1 rfl

/-- C8 counterexample: when the commit fails, both implementations leave
the stored row unchanged, but neither surfaces any error to the caller —
the bare `except` swallows it — so the claimed surfaced `PersistenceError`
does not exist. -/
theorem C8_counterexample :
    update_streakF (some ⟨2, 2, ⟨5, 0⟩⟩) ⟨6, 0⟩ true = (some ⟨2, 2, ⟨5, 0⟩⟩, none) ∧
    update_streak_sqliteF (some ⟨2, 2, ⟨5, 0⟩⟩) ⟨6, 0⟩ true =
      (some ⟨2, 2, ⟨5, 0⟩⟩, none) ∧
    ¬ (update_streakF (some ⟨2, 2, ⟨5, 0⟩⟩) ⟨6, 0⟩ true).2.isSome = true ∧
    ¬ (update_streak_sqliteF (some ⟨2, 2, ⟨5, 0⟩⟩) ⟨6, 0⟩ true).2.isSome = true := by
  refine ⟨by decide, by decide, by decide, by decide⟩

/-- C8 amended: a failing commit leaves the prior stored state unchanged
and the triggering login still succeeds (returns 200), but no
`PersistenceError` is surfaced to the caller: both implementations swallow
the exception (the ORM path after a rollback, the sqlite path after a
print), so the caller observes nothing. -/
theorem C8_amended (prior : Option StreakRecord) (t : Timestamp) :
    ((update_streakF prior t true).1 = prior ∧
      (update_streakF prior t true).2 = none) ∧
    ((update_streak_sqliteF prior t true).1 = prior ∧
      (update_streak_sqliteF prior t true).2 = none) ∧
    (∀ (checkHash : String → String → Bool) (users : String → Option UserRec)
        (streaks : Int → Option StreakRecord) (email pw : String) (u : UserRec),
      users email = some u → checkHash u.password pw = true →
        (login_run (fun p t2 => (update_streakF p t2 true).1) checkHash users
            streaks email pw t).1 = 200) := by
  refine ⟨?_, ?_, fun checkHash users streaks email pw u hu hc => ?_⟩
  · unfold update_streakF
    cases update_streak_try prior t <;> simp
  · unfold update_streak_sqliteF
    simp
  · simp [login_run, hu, hc]

/-- Witness for C8 amended: a concrete row, a failing commit, and a login
with matching credentials. -/
theorem C8_amended_witness :
    (update_streakF (some ⟨1, 1, ⟨0, 0⟩⟩) ⟨1, 0⟩ true).1 = some ⟨1, 1, ⟨0, 0⟩⟩ ∧
    (login_run (fun p t2 => (update_streakF p t2 true).1) (fun _ _ => true)
        (fun _ => some ⟨7, "hash"⟩) (fun _ => none) "a@b.c" "pw" ⟨1, 0⟩).1 = 200 :=
  ⟨(C8_amended (some ⟨1, 1, ⟨0, 0⟩⟩) ⟨1, 0⟩).1.1,
   (C8_amended (some ⟨1, 1, ⟨0, 0⟩⟩) ⟨1, 0⟩).2.2 (fun _ _ => true)
     (fun _ => some ⟨7, "hash"⟩) (fun _ => none) "a@b.c" "pw" ⟨7, "hash"⟩ rfl rfl⟩

/-- C9: on the same existing prior row and the same current date, the
SQLAlchemy path and the raw-SQL fallback produce identical resulting rows
(`current_streak`, `longest_streak` and `last_activity`). -/
theorem C9_backend_equivalence (s : StreakRecord) (t : Timestamp) :
    update_streak (some s) t = update_streak_sqlite (some s) t := by
  rw [update_streak_some, update_streak_sqlite_some]

/-- C10: a login that fails authentication — unknown email, or a stored
hash the password check rejects — returns 401 and leaves the whole streaks
store untouched, on both backends (the 401 return precedes any call to the
streak update). -/
theorem C10_failed_login_frame (checkHash : String → String → Bool)
    (users : String → Option UserRec) (streaks : Int → Option StreakRecord)
    (email pw : String) (now : Timestamp)
    (hfail : users email = none ∨
      ∃ u : UserRec, users email = some u ∧ checkHash u.password pw = false) :
    login_run update_streak checkHash users streaks email pw now =
      (401, streaks) ∧
    login_run update_streak_sqlite checkHash users streaks email pw now =
      (401, streaks) := by
  rcases hfail with h | ⟨u, hu, hc⟩
  · constructor <;> simp [login_run, h]
  · constructor <;> simp [login_run, hu, hc]

/-- Witness for C10: an unknown email against an empty user store. -/
theorem C10_failed_login_frame_witness :
    login_run update_streak (fun _ _ => true) (fun _ => none)
        (fun _ => some ⟨3, 3, ⟨1, 0⟩⟩) "x@y.z" "pw" ⟨2, 0⟩ =
      (401, fun _ => some ⟨3, 3, ⟨1, 0⟩⟩) ∧
    login_run update_streak_sqlite (fun _ _ => true) (fun _ => none)
        (fun _ => some ⟨3, 3, ⟨1, 0⟩⟩) "x@y.z" "pw" ⟨2, 0⟩ =
      (401, fun _ => some ⟨3, 3, ⟨1, 0⟩⟩) :=
  C10_failed_login_frame (fun _ _ => true) (fun _ => none)
    (fun _ => some ⟨3, 3, ⟨1, 0⟩⟩) "x@y.z" "pw" ⟨2, 0⟩ (Or.inl rfl)

end CataCuti
